import Mathlib

/-!
Verification of the FEED feedback intake & prioritization pipeline.

The repository ships the web frontend (`web/src/lib/api.ts`,
`web/src/components/PriorityList.tsx`, `PriorityTable.tsx`, dashboard
components) together with documentation of the backend pipeline.  The
backend implementation itself (`server/main.py`, `server/csv_importer.py`)
is not part of the available sources, so the Normalizer, Deduplicator,
Scorer, Aggregator, Tag Extractor, Batch Importer and KPI Aggregator are
modelled here from the specification; definitions taken from the shipped
frontend sources say so in their doc comments.

Real numbers of the scoring pipeline are modelled as rationals (`ℚ`).
The file is organized as definitions first, then theorems.
-/

namespace Feed

/-! ## Definitions: Normalizer -/

/-- Modelled from the spec: §4.1 — punctuation characters that are stripped
from the variant of the text that feeds the fingerprint. -/
def isPunctChar (c : Char) : Bool :=
  [',', '.', '!', '?', ';', ':', '"', '(', ')', '[', ']', '-'].contains c

/-- One step of the whitespace tokenizer, consumed by a right fold.
State: the word currently being built and the words already completed. -/
def wordsStep (c : Char) (st : List Char × List (List Char)) :
    List Char × List (List Char) :=
  if c.isWhitespace then ([], if st.1.isEmpty then st.2 else st.1 :: st.2)
  else (c :: st.1, st.2)

/-- Split a character list into maximal runs of non-whitespace characters
(the words); whitespace runs of any length separate words and leading or
trailing whitespace contributes nothing. -/
def words (l : List Char) : List (List Char) :=
  let st := l.foldr wordsStep ([], [])
  if st.1.isEmpty then st.2 else st.1 :: st.2

/-- Rebuild a string from words, with single spaces between them. -/
def joinWords (ts : List (List Char)) : String :=
  ⟨List.intercalate [' '] ts⟩

/-- Modelled from the spec: §4.1 Normalizer — words of the lowercased text
(lowercase, collapse whitespace runs, trim; punctuation preserved). -/
def normWords (l : List Char) : List (List Char) :=
  words (l.map Char.toLower)

/-- Modelled from the spec: §4.1 Normalizer — words of the lowercased,
punctuation-stripped text; this variant feeds the fingerprint. -/
def hashWords (l : List Char) : List (List Char) :=
  words ((l.map Char.toLower).filter (fun c => !(isPunctChar c)))

/-- Result of normalization: display form and dedup fingerprint. -/
structure Normalized where
  text_norm : String
  text_hash : String
deriving DecidableEq

/-- Error raised when normalization produces an empty text. -/
inductive NormError
  | emptyInput
deriving DecidableEq

/-- Modelled from the spec: §4.1 `normalize(raw) -> (text_norm, text_hash)`,
failing with `EmptyInputError` when nothing is left after normalization.
The fingerprint is modelled as the canonical (lowercased,
punctuation-stripped, whitespace-collapsed) string itself: the spec only
requires a deterministic content digest whose collisions are negligible,
and the identity embedding of the canonical form is the collision-free
instance of that contract. -/
def normalize (s : String) : Except NormError Normalized :=
  let ts := normWords s.data
  if ts.isEmpty then .error .emptyInput
  else .ok ⟨joinWords ts, joinWords (hashWords s.data)⟩

/-! ## Definitions: Priority Aggregator -/

/-- Clamp a rational into the unit interval. -/
def clamp01 (x : ℚ) : ℚ := max 0 (min 1 x)

/-- Modelled from the spec: §4.4 — the named weight vector of the priority
aggregator (urgency, impact, inverted-sentiment shares). -/
structure Weights where
  wUrgency : ℚ
  wImpact : ℚ
  wSentiment : ℚ
deriving DecidableEq

/-- Sum of the weight vector. -/
def Weights.total (w : Weights) : ℚ := w.wUrgency + w.wImpact + w.wSentiment

/-- Modelled from the spec: §4.4 / §7 — `InvalidWeightsError`, raised when
the aggregator is configured with weights whose sum deviates from 1. -/
inductive ConfigError
  | invalidWeights
deriving DecidableEq

/-- Modelled from the spec: §4.4 — tolerance on the weight sum. -/
def weightEps : ℚ := 1 / 100

/-- Modelled from the spec: §4.4 — configuring the aggregator validates the
weight sum and fails with `InvalidWeightsError` when it deviates from 1
beyond `weightEps`. -/
def configureAggregator (w : Weights) : Except ConfigError Weights :=
  if |w.total - 1| ≤ weightEps then .ok w else .error .invalidWeights

/-- Modelled from the spec: §4.4 — the reference priority formula with an
explicit weight vector:
`clamp01(wU*urgency + wI*impact + wS*(1 - (sentiment+1)/2))`. -/
def aggregateWith (w : Weights) (sentiment urgency impact : ℚ) : ℚ :=
  clamp01 (w.wUrgency * urgency + w.wImpact * impact +
    w.wSentiment * (1 - (sentiment + 1) / 2))

/-- Modelled from the spec: §4.4 — the reference weight vector
(0.45, 0.40, 0.15). -/
def defaultWeights : Weights := ⟨45 / 100, 40 / 100, 15 / 100⟩

/-- Modelled from the spec: §4.4 `aggregate(sentiment, urgency, impact)`
with the reference weights. -/
def aggregate (sentiment urgency impact : ℚ) : ℚ :=
  aggregateWith defaultWeights sentiment urgency impact

/-! ## Definitions: Tag Extractor -/

/-- Substring test: some suffix of `text` starts with `kw`. -/
def containsSub (text kw : String) : Bool :=
  text.data.tails.any (fun t => kw.data.isPrefixOf t)

/-- Does the normalized text contain any of the keywords? -/
def hasAnyKeyword (tn : String) (kws : List String) : Bool :=
  kws.any (fun kw => containsSub tn kw)

/-- Modelled from the spec: §4.5 — keyword set of the "bug" content tag. -/
def bugKeywords : List String := ["crash", "error", "broken", "fails"]

/-- Modelled from the spec: §4.5 — keyword set of the "feature_request"
content tag. -/
def featureKeywords : List String := ["wish", "would love", "suggest", "add"]

/-- Modelled from the spec: §4.5 — keyword set of the "billing" content
tag. -/
def billingKeywords : List String :=
  ["payment", "invoice", "subscription", "charge"]

/-- From source `web/src/components/PriorityList.tsx` (`TAGS`): the closed
tag vocabulary. -/
def TAGS : List String :=
  ["bug", "feature_request", "billing", "negative", "neutral", "very_positive"]

/-- The three sentiment-axis tags within `TAGS`. -/
def sentimentAxis : List String := ["negative", "neutral", "very_positive"]

/-- Modelled from the spec: §4.5 sentiment axis — `sentiment <= -0.2` is
negative, `sentiment >= 0.6` is very positive, otherwise neutral. -/
def sentimentTag (s : ℚ) : String :=
  if s ≤ -(2 / 10) then "negative"
  else if 6 / 10 ≤ s then "very_positive"
  else "neutral"

/-- Modelled from the spec: §4.5 content axis — all keyword-set matches are
kept. -/
def contentTags (tn : String) : List String :=
  (if hasAnyKeyword tn bugKeywords then ["bug"] else []) ++
  (if hasAnyKeyword tn featureKeywords then ["feature_request"] else []) ++
  (if hasAnyKeyword tn billingKeywords then ["billing"] else [])

/-- Modelled from the spec: §4.5
`extract_tags(text_norm, sentiment) -> set<Tag>` — independent content and
sentiment axes. -/
def extract_tags (tn : String) (s : ℚ) : List String :=
  contentTags tn ++ [sentimentTag s]

/-! ## Definitions: Signal Scorer and FeedbackItem -/

/-- Modelled from the spec: §4.3 — positive-cue lexicon of the sentiment
signal. -/
def posCues : List String := ["love", "great", "good", "perfect", "excellent"]

/-- Modelled from the spec: §4.3 — negative-cue lexicon of the sentiment
signal. -/
def negCues : List String :=
  ["crash", "broken", "error", "fails", "terrible", "bad"]

/-- Modelled from the spec: §4.3 — urgency-indicating tokens. -/
def urgentCues : List String := ["urgent", "crash", "immediately", "asap"]

/-- Modelled from the spec: §4.3 — scale language informing impact. -/
def scaleCues : List String := ["all", "every", "many users"]

/-- Number of lexicon entries found in the normalized text. -/
def cueHits (tn : String) (cues : List String) : Nat :=
  (cues.filter (fun kw => containsSub tn kw)).length

/-- Modelled from the spec: §4.3 — sentiment as a bounded (saturating)
ratio of positive-cue and negative-cue hits, neutral (0) on cue-free
text. -/
def sentimentScore (tn : String) : ℚ :=
  ((cueHits tn posCues : ℚ) - (cueHits tn negCues : ℚ)) /
    ((cueHits tn posCues : ℚ) + (cueHits tn negCues : ℚ) + 1)

/-- Modelled from the spec: §4.3 — the tunable minimal-urgency floor. -/
def urgencyFloor : ℚ := 2 / 10

/-- Modelled from the spec: §4.3 — urgency from urgency-cue presence,
starting at the floor and saturating at 1. -/
def urgencyScore (tn : String) : ℚ :=
  min 1 (urgencyFloor + (4 / 10) * (cueHits tn urgentCues : ℚ))

/-- Modelled from the spec: §4.3 — impact from scale language, saturating
at 1. -/
def impactScore (tn : String) : ℚ :=
  min 1 (1 / 10 + (45 / 100) * (cueHits tn scaleCues : ℚ))

/-- The central persisted entity (spec §3); `summary`/`consensus_score`
belong to external collaborators and play no role in the core claims. -/
structure FeedbackItem where
  source : String
  raw_text : String
  text_norm : String
  text_hash : String
  sentiment : ℚ
  urgency : ℚ
  impact : ℚ
  priority : ℚ
  tags : List String
deriving DecidableEq

/-- Modelled from the spec: §2 single-item pipeline — build the persisted
record from normalized text by scoring, aggregating and tagging. -/
def mkItem (source raw : String) (n : Normalized) : FeedbackItem :=
  let s := sentimentScore n.text_norm
  let u := urgencyScore n.text_norm
  let im := impactScore n.text_norm
  { source := source, raw_text := raw, text_norm := n.text_norm,
    text_hash := n.text_hash, sentiment := s, urgency := u, impact := im,
    priority := aggregate s u im, tags := extract_tags n.text_norm s }

/-! ## Definitions: Deduplicator and single-item ingestion -/

/-- Modelled from the spec: §4.2 / §6 — `exists_by_hash` over the persisted
store. -/
def existsByHash (store : List FeedbackItem) (h : String) : Bool :=
  store.any (fun it => it.text_hash == h)

/-- Outcome of single-item ingestion: saved record, duplicate-skip, or
empty-input rejection (spec §7 typed results). -/
inductive IngestOutcome
  | saved (item : FeedbackItem)
  | duplicate
  | emptyInput
deriving DecidableEq

/-- Modelled from the spec: §2 manual path —
normalize → dedup-check → score → aggregate → tag → persist; duplicates are
not persisted and are reported as "not saved", not as errors. -/
def ingest (store : List FeedbackItem) (raw : String) :
    List FeedbackItem × IngestOutcome :=
  match normalize raw with
  | .error _ => (store, .emptyInput)
  | .ok n =>
    if existsByHash store n.text_hash then (store, .duplicate)
    else (store ++ [mkItem "manual" raw n], .saved (mkItem "manual" raw n))

/-- Number of persisted rows carrying a given fingerprint. -/
def countByHash (store : List FeedbackItem) (h : String) : Nat :=
  (store.filter (fun it => it.text_hash == h)).length

/-! ## Definitions: Batch Importer -/

/-- From source `web` CSV documentation (CsvUpload expected-format list and
the CSV import guide): candidate header names of the mandatory review-text
column, in priority order. -/
def textCandidates : List String :=
  ["review", "content", "text", "comment", "feedback", "body", "message"]

/-- From source CSV documentation: candidate header names of the optional
rating column. -/
def ratingCandidates : List String := ["rating", "score", "stars", "star"]

/-- Lowercase a string, for case-insensitive header matching. -/
def lowerStr (s : String) : String := ⟨s.data.map Char.toLower⟩

/-- Modelled from the spec: §4.6 step 1 — scan the header row for a
case-insensitive match, walking the candidate list in priority order and
returning the index of the matched header. -/
def detectRole (headers : List String) : List String → Option Nat
  | [] => none
  | c :: cs =>
    match headers.findIdx? (fun h => lowerStr h == c) with
    | some i => some i
    | none => detectRole headers cs

/-- Modelled from the spec: §7 — whole-batch structural failure when no
text column is identifiable. -/
inductive ImportError
  | columnDetection
deriving DecidableEq

/-- Per-row outcome inside the batch loop. -/
inductive RowOutcome
  | importedRow
  | skippedRow
  | erroredRow
deriving DecidableEq

/-- The ephemeral per-call import counters (spec §3 ImportBatch). -/
structure ImportStats where
  imported : Nat
  skipped : Nat
  errors : Nat
  total_processed : Nat
deriving DecidableEq

/-- Fresh counters. -/
def ImportStats.zero : ImportStats := ⟨0, 0, 0, 0⟩

/-- Count one processed row under its outcome. -/
def ImportStats.bump (st : ImportStats) : RowOutcome → ImportStats
  | .importedRow =>
    { st with imported := st.imported + 1,
              total_processed := st.total_processed + 1 }
  | .skippedRow =>
    { st with skipped := st.skipped + 1,
              total_processed := st.total_processed + 1 }
  | .erroredRow =>
    { st with errors := st.errors + 1,
              total_processed := st.total_processed + 1 }

/-- Modelled from the spec: §4.6 step 2 — one row through
normalize → dedup → score → aggregate → tag → persist, with fault
isolation: empty input and duplicates are skips, a persistence failure
(the `persistOk` collaborator refusing the insert) is a row error, and
nothing aborts the batch. -/
def processRow (persistOk : FeedbackItem → Bool) (store : List FeedbackItem)
    (text : String) : List FeedbackItem × RowOutcome :=
  match normalize text with
  | .error _ => (store, .skippedRow)
  | .ok n =>
    if existsByHash store n.text_hash then (store, .skippedRow)
    else
      if persistOk (mkItem "app_store_csv" text n) then
        (store ++ [mkItem "app_store_csv" text n], .importedRow)
      else (store, .erroredRow)

/-- Run the fault-isolating row loop over the extracted text cells. -/
def runRows (persistOk : FeedbackItem → Bool) :
    List FeedbackItem → ImportStats → List String →
      List FeedbackItem × ImportStats
  | store, stats, [] => (store, stats)
  | store, stats, t :: ts =>
    runRows persistOk (processRow persistOk store t).1
      (stats.bump (processRow persistOk store t).2) ts

/-- The batch result returned to the caller (spec §4.6). -/
structure ImportBatch where
  stats : ImportStats
  filename : String
deriving DecidableEq

/-- Modelled from the spec: §4.6 `import_csv(file) -> ImportBatch` — detect
the mandatory text column (failing the whole batch with
`ColumnDetectionError` when none matches), then stream every data row's
text cell through the row loop. -/
def import_csv (persistOk : FeedbackItem → Bool) (store : List FeedbackItem)
    (filename : String) (headers : List String)
    (rows : List (List String)) :
    Except ImportError (List FeedbackItem × ImportBatch) :=
  match detectRole headers textCandidates with
  | none => .error .columnDetection
  | some i =>
    let res := runRows persistOk store .zero
      (rows.map (fun row => row.getD i ""))
    .ok (res.1, ⟨res.2, filename⟩)

/-- The per-row outcome discipline of the fault-isolating loop: a row is
skipped exactly on empty input or duplicate fingerprint, errored exactly
when the persistence collaborator refuses a fresh row, imported exactly
when persistence accepts it. -/
def RowClassification (persistOk : FeedbackItem → Bool) : Prop :=
  ∀ (sto : List FeedbackItem) (t : String),
    ((processRow persistOk sto t).2 = .skippedRow ↔
      (normalize t = .error .emptyInput ∨
        ∃ n, normalize t = .ok n ∧ existsByHash sto n.text_hash = true)) ∧
    ((processRow persistOk sto t).2 = .erroredRow ↔
      ∃ n, normalize t = .ok n ∧ existsByHash sto n.text_hash = false ∧
        persistOk (mkItem "app_store_csv" t n) = false) ∧
    ((processRow persistOk sto t).2 = .importedRow ↔
      ∃ n, normalize t = .ok n ∧ existsByHash sto n.text_hash = false ∧
        persistOk (mkItem "app_store_csv" t n) = true)

/-- Ten valid review rows followed by one row whose review cell is empty
(header row `title,review,rating`). -/
def sampleRows : List (List String) :=
  [["t", "review one", "5"], ["t", "review two", "4"],
   ["t", "review three", "3"], ["t", "review four", "2"],
   ["t", "review five", "1"], ["t", "review six", "5"],
   ["t", "review seven", "4"], ["t", "review eight", "3"],
   ["t", "review nine", "2"], ["t", "review ten", "1"],
   ["t", "", "3"]]

/-! ## Definitions: KPI Aggregator and display banding -/

/-- The fixed 0.66 threshold shared by the "High" display band and the KPI
urgent counter. -/
def highBand : ℚ := 66 / 100

/-- From source `web/src/components/PriorityTable.tsx` (`level`): display
banding of a possibly-null score, the null coerced to 0 — "High" at
≥ 0.66, "Medium" at ≥ 0.33, otherwise "Low". -/
def level (v : Option ℚ) : String :=
  let n := v.getD 0
  if highBand ≤ n then "High"
  else if 33 / 100 ≤ n then "Medium"
  else "Low"

/-- KPI summary (spec §4.7); `sentiment_over_time` is omitted here — the
claim under verification concerns only the counting thresholds. -/
structure Kpis where
  total : Nat
  urgent : Nat
  positive : Nat
  negative : Nat
  avg_priority : ℚ
deriving DecidableEq

/-- Modelled from the spec: §4.7 `compute_kpis` over the items of the
trailing window (the `created_at` windowing is applied by the caller
before this roll-up): `urgent` counts urgency above the fixed 0.66
threshold, `positive`/`negative` use the §4.5 sentiment thresholds. -/
def computeKpis (items : List FeedbackItem) : Kpis :=
  { total := items.length
    urgent :=
      (items.filter (fun it => decide (highBand < it.urgency))).length
    positive :=
      (items.filter (fun it => decide ((6 / 10 : ℚ) ≤ it.sentiment))).length
    negative :=
      (items.filter (fun it => decide (it.sentiment ≤ -(2 / 10)))).length
    avg_priority :=
      if items.length = 0 then 0
      else (items.map FeedbackItem.priority).sum / items.length }

/-! ## Definitions: dashboard prioritized-feedback load -/

/-- From source `web/src/lib/api.ts` (`FeedbackRow`): the fields of a
fetched row that the prioritized views read; scores are nullable. -/
structure FeedbackRow where
  id : Nat
  raw_text : String
  created_at : String
  sentiment : Option ℚ
  urgency : Option ℚ
  impact : Option ℚ
  priority : Option ℚ
  rowTags : List String
deriving DecidableEq

/-- From source `web/src/components/PriorityList.tsx` /
`PriorityTable.tsx` (`load`): the sort comparator
`(a, b) => (b.priority ?? 0) - (a.priority ?? 0)` — descending priority,
null coerced to 0. -/
def priorityDesc (a b : FeedbackRow) : Bool :=
  decide (b.priority.getD 0 ≤ a.priority.getD 0)

/-- From source `web/src/components/PriorityList.tsx` and
`PriorityTable.tsx` (`load`): keep only rows with a non-null priority,
then sort by descending priority. -/
def loadClean (data : List FeedbackRow) : List FeedbackRow :=
  (data.filter (fun r => r.priority.isSome)).mergeSort priorityDesc

/-! ## Definitions: API client helpers -/

/-- An HTTP response as the generic `api.ts` helpers consume it: ok flag,
status code, and the JSON-parsed body when parsing succeeds. -/
structure ApiResponse (α : Type) where
  ok : Bool
  status : Nat
  body : Option α

/-- From source `web/src/lib/api.ts` (`echo`, `ingest`, `listFeedback`,
`prioritized`, `summarizeById`, `suggestReplyById`, `getKpis`,
`getImportStatus` all share this shape): throw `API error <status>` on a
non-ok response, otherwise return the parsed JSON body (a body that fails
to parse rejects the call, modelled as an error). -/
def fetchJson {α : Type} (res : ApiResponse α) : Except String α :=
  if res.ok then
    match res.body with
    | some v => .ok v
    | none => .error "invalid json"
  else .error ("API error " ++ toString res.status)

/-- The JSON-parsed error body of a failed upload: its optional `detail`
field. -/
structure UploadErrorBody where
  detail : Option String
deriving DecidableEq

/-- A response to the CSV upload: like `ApiResponse`, plus the parse
attempt on the error body (`none` when that body is not valid JSON). -/
structure UploadResponse (α : Type) where
  ok : Bool
  status : Nat
  body : Option α
  errorBody : Option UploadErrorBody

/-- From source `web/src/lib/api.ts` (`uploadCsv`): on a non-ok response,
parse the error body — falling back to the object `{detail: 'Upload
failed'}` when it is not JSON — and throw
`errorData.detail || "Upload failed with status N"`, where JavaScript
truthiness sends a missing or empty `detail` to the status message. -/
def uploadCsv {α : Type} (res : UploadResponse α) : Except String α :=
  if res.ok then
    match res.body with
    | some v => .ok v
    | none => .error "invalid json"
  else
    let errorData : UploadErrorBody :=
      res.errorBody.getD ⟨some "Upload failed"⟩
    .error (match errorData.detail with
      | some d =>
        if d.isEmpty then "Upload failed with status " ++ toString res.status
        else d
      | none => "Upload failed with status " ++ toString res.status)

/-! ## Theorems: Normalizer -/

theorem wordsStep_ws_init (c : Char) (hc : c.isWhitespace = true) :
    wordsStep c ([], []) = ([], []) := by
  simp [wordsStep, hc]

theorem words_append_ws (l : List Char) (c : Char)
    (hc : c.isWhitespace = true) :
    words (l ++ [c]) = words l := by
  unfold words
  rw [List.foldr_append]
  simp only [List.foldr, wordsStep_ws_init c hc]

theorem normWords_append_space (l : List Char) :
    normWords (l ++ [' ']) = normWords l := by
  unfold normWords
  rw [List.map_append]
  simpa using words_append_ws (l.map Char.toLower) ' ' (by decide)

theorem hashWords_append_space (l : List Char) :
    hashWords (l ++ [' ']) = hashWords l := by
  unfold hashWords
  rw [List.map_append, List.filter_append]
  simpa using words_append_ws ((l.map Char.toLower).filter
    (fun c => !(isPunctChar c))) ' ' (by decide)

/-- C6: `normalize` is a pure function (repeated calls agree definitionally)
and appending trailing whitespace changes neither `text_norm` nor
`text_hash`. -/
theorem normalize_trailing_space (t : String) :
    normalize t = normalize t ∧ normalize (t ++ " ") = normalize t := by
  refine ⟨rfl, ?_⟩
  unfold normalize
  rw [String.data_append]
  show (let ts := normWords (t.data ++ [' ']); _) = _
  rw [show (" " : String).data = [' '] from rfl,
    normWords_append_space, hashWords_append_space]

/-! ## Theorems: Priority Aggregator -/

theorem clamp01_nonneg (x : ℚ) : 0 ≤ clamp01 x := le_max_left 0 _

theorem clamp01_le_one (x : ℚ) : clamp01 x ≤ 1 :=
  max_le (by norm_num) (min_le_left 1 x)

/-- C1: on in-range inputs, `aggregate` is exactly the spec's reference
formula and its value lies in the unit interval. -/
theorem aggregate_eq_formula (s u i : ℚ)
    (hs₁ : -1 ≤ s) (hs₂ : s ≤ 1) (hu₁ : 0 ≤ u) (hu₂ : u ≤ 1)
    (hi₁ : 0 ≤ i) (hi₂ : i ≤ 1) :
    aggregate s u i =
      clamp01 ((45 / 100) * u + (40 / 100) * i +
        (15 / 100) * (1 - (s + 1) / 2)) ∧
    0 ≤ aggregate s u i ∧ aggregate s u i ≤ 1 :=
  ⟨rfl, clamp01_nonneg _, clamp01_le_one _⟩

/-- C1 witness: the theorem applied at sentiment 0, urgency 1/2,
impact 1/2. -/
theorem aggregate_eq_formula_spot :
    (-1 : ℚ) ≤ 0 ∧ (0 : ℚ) ≤ 1 ∧ (0 : ℚ) ≤ 1 / 2 ∧ (1 / 2 : ℚ) ≤ 1 ∧
    (aggregate 0 (1 / 2) (1 / 2) =
      clamp01 ((45 / 100) * (1 / 2) + (40 / 100) * (1 / 2) +
        (15 / 100) * (1 - (0 + 1) / 2)) ∧
      0 ≤ aggregate 0 (1 / 2) (1 / 2) ∧ aggregate 0 (1 / 2) (1 / 2) ≤ 1) :=
  ⟨by norm_num, by norm_num, by norm_num, by norm_num,
    aggregate_eq_formula 0 (1 / 2) (1 / 2) (by norm_num) (by norm_num)
      (by norm_num) (by norm_num) (by norm_num) (by norm_num)⟩

/-- C7: configuration fails with `InvalidWeightsError` exactly when the
weight sum deviates from 1 beyond the tolerance, and for weights summing
to 1 the aggregated priority of in-range inputs stays in the unit
interval. -/
theorem configure_invalid_weights (w : Weights) :
    (configureAggregator w = .error .invalidWeights ↔
      weightEps < |w.total - 1|) ∧
    (w.total = 1 → ∀ s u i : ℚ, -1 ≤ s → s ≤ 1 → 0 ≤ u → u ≤ 1 →
      0 ≤ i → i ≤ 1 →
      0 ≤ aggregateWith w s u i ∧ aggregateWith w s u i ≤ 1) := by
  constructor
  · unfold configureAggregator
    split
    · rename_i h
      constructor
      · intro hc; exact absurd hc (by simp)
      · intro hlt; exact absurd h (not_le.mpr hlt)
    · rename_i h
      simp only [not_le] at h
      exact ⟨fun _ => h, fun _ => rfl⟩
  · intro _ s u i _ _ _ _ _ _
    exact ⟨clamp01_nonneg _, clamp01_le_one _⟩

/-- C7 witness: weights summing to 1.3 are rejected at configuration time,
and the reference weights (which sum to 1) keep the priority of a concrete
in-range input inside the unit interval. -/
theorem configure_invalid_weights_spot :
    configureAggregator ⟨45 / 100, 40 / 100, 45 / 100⟩ =
      .error .invalidWeights ∧
    (0 ≤ aggregateWith defaultWeights 0 1 0 ∧
      aggregateWith defaultWeights 0 1 0 ≤ 1) :=
  ⟨(configure_invalid_weights ⟨45 / 100, 40 / 100, 45 / 100⟩).1.mpr
      (by
        unfold Weights.total weightEps
        rw [show (45 / 100 + 40 / 100 + 45 / 100 - 1 : ℚ) = 3 / 10 by
          norm_num, abs_of_pos (by norm_num)]
        norm_num),
    (configure_invalid_weights defaultWeights).2
      (by unfold defaultWeights Weights.total; norm_num)
      0 1 0 (by norm_num) (by norm_num) (by norm_num) (by norm_num)
      (by norm_num) (by norm_num)⟩

/-! ## Theorems: Tag Extractor -/

theorem contentTags_cases (tn : String) :
    ∀ tg ∈ contentTags tn,
      tg = "bug" ∨ tg = "feature_request" ∨ tg = "billing" := by
  intro tg htg
  unfold contentTags at htg
  rcases List.mem_append.mp htg with h | h
  · rcases List.mem_append.mp h with h₂ | h₂
    · left; split at h₂ <;> simp_all
    · right; left; split at h₂ <;> simp_all
  · right; right; split at h <;> simp_all

theorem sentimentTag_cases (s : ℚ) :
    sentimentTag s = "negative" ∨ sentimentTag s = "neutral" ∨
      sentimentTag s = "very_positive" := by
  unfold sentimentTag
  split
  · left; rfl
  · split
    · right; right; rfl
    · right; left; rfl

/-- C5: `extract_tags` always returns a non-empty list drawn from the tag
vocabulary, with exactly one sentiment-axis tag placed per the spec's
thresholds; with no content-keyword match the result is exactly the
sentiment-axis tag. -/
theorem extract_tags_spec (tn : String) (s : ℚ) :
    extract_tags tn s ≠ [] ∧
    (∀ tg ∈ extract_tags tn s, tg ∈ TAGS) ∧
    ((extract_tags tn s).filter (fun tg => sentimentAxis.contains tg)).length
      = 1 ∧
    (sentimentTag s = "negative" ↔ s ≤ -(2 / 10)) ∧
    (sentimentTag s = "very_positive" ↔ 6 / 10 ≤ s) ∧
    (sentimentTag s = "neutral" ↔ ¬s ≤ -(2 / 10) ∧ ¬6 / 10 ≤ s) ∧
    (contentTags tn = [] → extract_tags tn s = [sentimentTag s]) := by
  have hcontent : ∀ tg ∈ contentTags tn, tg ∉ sentimentAxis := by
    intro tg htg
    rcases contentTags_cases tn tg htg with h | h | h <;>
      (subst h; decide)
  have haxis : sentimentTag s ∈ sentimentAxis := by
    rcases sentimentTag_cases s with h | h | h <;> (rw [h]; decide)
  have hneg₂ : ∀ x : ℚ, x ≤ -(2 / 10) → ¬(6 / 10 ≤ x) := by
    intro x hx; nlinarith
  refine ⟨?_, ?_, ?_, ?_, ?_, ?_, ?_⟩
  · unfold extract_tags
    simp
  · intro tg htg
    rcases List.mem_append.mp htg with h | h
    · rcases contentTags_cases tn tg h with h₂ | h₂ | h₂ <;>
        (subst h₂; decide)
    · rcases List.mem_singleton.mp h with h₂
      subst h₂
      rcases sentimentTag_cases s with h₃ | h₃ | h₃ <;> (rw [h₃]; decide)
  · unfold extract_tags
    rw [List.filter_append, List.filter_eq_nil_iff.mpr
      (by intro a ha; simpa using hcontent a ha)]
    simp [haxis]
  · unfold sentimentTag
    split
    · rename_i h; simpa using h
    · rename_i h
      split <;> simpa using h
  · unfold sentimentTag
    split
    · rename_i h
      constructor
      · intro hc; exact absurd hc (by decide)
      · intro hc; exact absurd hc (hneg₂ s h)
    · split
      · rename_i h; simpa using h
      · rename_i h; simpa using h
  · unfold sentimentTag
    split
    · rename_i h
      constructor
      · intro hc; exact absurd hc (by decide)
      · intro hc; exact absurd h hc.1
    · rename_i h
      split
      · rename_i h₂
        constructor
        · intro hc; exact absurd hc (by decide)
        · intro hc; exact absurd h₂ hc.2
      · rename_i h₂; simp [h, h₂]
  · intro h
    unfold extract_tags
    rw [h, List.nil_append]

/-- C5 witness: the theorem applied to a keyword-free text at sentiment 0,
whose tags reduce to exactly the neutral sentiment tag. -/
theorem extract_tags_spec_spot :
    (extract_tags "the dashboard loads" 0 ≠ [] ∧
      (∀ tg ∈ extract_tags "the dashboard loads" 0, tg ∈ TAGS) ∧
      ((extract_tags "the dashboard loads" 0).filter
        (fun tg => sentimentAxis.contains tg)).length = 1 ∧
      (sentimentTag 0 = "negative" ↔ (0 : ℚ) ≤ -(2 / 10)) ∧
      (sentimentTag 0 = "very_positive" ↔ (6 / 10 : ℚ) ≤ 0) ∧
      (sentimentTag 0 = "neutral" ↔
        ¬(0 : ℚ) ≤ -(2 / 10) ∧ ¬(6 / 10 : ℚ) ≤ 0) ∧
      (contentTags "the dashboard loads" = [] →
        extract_tags "the dashboard loads" 0 = [sentimentTag 0])) ∧
    contentTags "the dashboard loads" = [] :=
  ⟨extract_tags_spec "the dashboard loads" 0, by decide⟩

/-! ## Theorems: Deduplicator -/

/-- C2: submitting the same raw text twice persists exactly one row: the
first call saves, the second — through the manual path or as a CSV row —
is reported as a duplicate skip, persists nothing, and the store holds
exactly one row with that fingerprint. -/
theorem ingest_dedup (store : List FeedbackItem) (t : String) (n : Normalized)
    (hn : normalize t = .ok n)
    (hfree : existsByHash store n.text_hash = false) :
    (ingest store t).2 = .saved (mkItem "manual" t n) ∧
    (ingest (ingest store t).1 t).2 = .duplicate ∧
    (ingest (ingest store t).1 t).1 = (ingest store t).1 ∧
    countByHash (ingest (ingest store t).1 t).1 n.text_hash = 1 ∧
    (∀ persistOk : FeedbackItem → Bool,
      (processRow persistOk (ingest store t).1 t).2 = .skippedRow ∧
      (processRow persistOk (ingest store t).1 t).1 = (ingest store t).1) := by
  have hstep : ingest store t =
      (store ++ [mkItem "manual" t n], .saved (mkItem "manual" t n)) := by
    unfold ingest
    rw [hn]
    simp [hfree]
  have hhash : (mkItem "manual" t n).text_hash = n.text_hash := rfl
  have hdup :
      existsByHash (store ++ [mkItem "manual" t n]) n.text_hash = true := by
    unfold existsByHash
    rw [List.any_append]
    simp [hhash]
  have hstep₂ : ingest (store ++ [mkItem "manual" t n]) t =
      (store ++ [mkItem "manual" t n], .duplicate) := by
    unfold ingest
    rw [hn]
    simp [hdup]
  have hfilter : store.filter (fun it => it.text_hash == n.text_hash) = [] :=
    List.filter_eq_nil_iff.mpr (List.any_eq_false.mp hfree)
  refine ⟨by rw [hstep], ?_, ?_, ?_, ?_⟩
  · rw [hstep, hstep₂]
  · rw [hstep, hstep₂]
  · rw [hstep, hstep₂]
    unfold countByHash
    rw [List.filter_append, hfilter]
    simp [hhash]
  · intro persistOk
    rw [hstep]
    unfold processRow
    rw [hn]
    simp [hdup]

/-- C2 witness: the theorem applied to the raw text "hello" over an empty
store. -/
theorem ingest_dedup_spot :
    normalize "hello" = .ok ⟨"hello", "hello"⟩ ∧
    existsByHash [] "hello" = false ∧
    ((ingest [] "hello").2 =
        .saved (mkItem "manual" "hello" ⟨"hello", "hello"⟩) ∧
      (ingest (ingest [] "hello").1 "hello").2 = .duplicate ∧
      (ingest (ingest [] "hello").1 "hello").1 = (ingest [] "hello").1 ∧
      countByHash (ingest (ingest [] "hello").1 "hello").1 "hello" = 1 ∧
      (∀ persistOk : FeedbackItem → Bool,
        (processRow persistOk (ingest [] "hello").1 "hello").2 =
          .skippedRow ∧
        (processRow persistOk (ingest [] "hello").1 "hello").1 =
          (ingest [] "hello").1)) :=
  ⟨rfl, rfl, ingest_dedup [] "hello" ⟨"hello", "hello"⟩ rfl rfl⟩

/-! ## Theorems: Batch Importer -/

theorem detectRole_none_iff (headers : List String) (cands : List String) :
    detectRole headers cands = none ↔
      ∀ h ∈ headers, lowerStr h ∉ cands := by
  induction cands with
  | nil => simp [detectRole]
  | cons c cs ih =>
    unfold detectRole
    cases hf : headers.findIdx? (fun h => lowerStr h == c) with
    | some i =>
      rcases List.findIdx?_eq_some_iff_getElem.mp hf with ⟨hlt, hp, -⟩
      have hc : lowerStr headers[i] = c := by simpa using hp
      constructor
      · intro h
        exact absurd h (by simp)
      · intro hall
        exact absurd (show lowerStr headers[i] ∈ c :: cs by
            rw [hc]; exact List.mem_cons_self c cs)
          (hall headers[i] (List.getElem_mem hlt))
    | none =>
      have hnone : ∀ h ∈ headers, lowerStr h ≠ c := by
        intro h hh
        have := List.findIdx?_eq_none_iff.mp hf h hh
        simpa using this
      rw [ih]
      constructor
      · intro hcs h hh hmem
        rcases List.mem_cons.mp hmem with h₂ | h₂
        · exact hnone h hh h₂
        · exact hcs h hh h₂
      · intro hall h hh hmem
        exact hall h hh (List.mem_cons_of_mem c hmem)

/-- C4: the batch fails with `ColumnDetectionError` exactly when no header
matches any text-role candidate under case-insensitive comparison; a
matching header always yields a batch result; and a detection failure is
decided by the header row alone — no rows are processed (the outcome is
the same for every row list). -/
theorem import_csv_column_detection (persistOk : FeedbackItem → Bool)
    (store : List FeedbackItem) (filename : String)
    (headers : List String) (rows : List (List String)) :
    ((∀ h ∈ headers, lowerStr h ∉ textCandidates) ↔
      import_csv persistOk store filename headers rows =
        .error .columnDetection) ∧
    ((∃ h ∈ headers, lowerStr h ∈ textCandidates) ↔
      ∃ r, import_csv persistOk store filename headers rows = .ok r) ∧
    (import_csv persistOk store filename headers rows =
        .error .columnDetection →
      ∀ rows', import_csv persistOk store filename headers rows' =
        .error .columnDetection) := by
  have key : import_csv persistOk store filename headers rows =
      .error .columnDetection ↔
      detectRole headers textCandidates = none := by
    unfold import_csv
    cases hd : detectRole headers textCandidates <;> simp
  refine ⟨(detectRole_none_iff headers textCandidates).symm.trans key.symm,
    ⟨?_, ?_⟩, ?_⟩
  · rintro ⟨h, hh, hmem⟩
    cases hd : detectRole headers textCandidates with
    | none => exact absurd hmem ((detectRole_none_iff _ _).mp hd h hh)
    | some i =>
      refine ⟨((runRows persistOk store .zero
          (rows.map (fun row => row.getD i ""))).1,
        ⟨(runRows persistOk store .zero
          (rows.map (fun row => row.getD i ""))).2, filename⟩), ?_⟩
      unfold import_csv
      rw [hd]
  · rintro ⟨r, hr⟩
    by_contra hno
    push_neg at hno
    have : import_csv persistOk store filename headers rows =
        .error .columnDetection :=
      key.mpr ((detectRole_none_iff _ _).mpr hno)
    rw [hr] at this
    exact absurd this (by simp)
  · intro herr rows'
    have hnone : detectRole headers textCandidates = none := key.mp herr
    unfold import_csv
    rw [hnone]

/-- C4 witness: the theorem applied to a capitalized header row (matched
case-insensitively) and to a header row without any text-role column
(whole batch rejected). -/
theorem import_csv_column_detection_spot :
    (∃ r, import_csv (fun _ => true) [] "a.csv"
      ["Title", "Review", "Rating"] [] = .ok r) ∧
    import_csv (fun _ => true) [] "a.csv" ["rating", "date"]
      [["5", "2024-01-01"]] = .error .columnDetection :=
  ⟨(import_csv_column_detection (fun _ => true) [] "a.csv"
      ["Title", "Review", "Rating"] []).2.1.mp
      ⟨"Review", by decide, by decide⟩,
    (import_csv_column_detection (fun _ => true) [] "a.csv"
      ["rating", "date"] [["5", "2024-01-01"]]).1.mp (by decide)⟩

theorem bump_total (st : ImportStats) (o : RowOutcome) :
    (st.bump o).total_processed = st.total_processed + 1 := by
  cases o <;> rfl

theorem bump_sum (st : ImportStats) (o : RowOutcome)
    (h : st.total_processed = st.imported + st.skipped + st.errors) :
    (st.bump o).total_processed =
      (st.bump o).imported + (st.bump o).skipped + (st.bump o).errors := by
  cases o <;> simp [ImportStats.bump] <;> omega

theorem runRows_stats (persistOk : FeedbackItem → Bool) (ts : List String) :
    ∀ store stats,
      (runRows persistOk store stats ts).2.total_processed =
        stats.total_processed + ts.length ∧
      (stats.total_processed = stats.imported + stats.skipped + stats.errors →
        (runRows persistOk store stats ts).2.total_processed =
          (runRows persistOk store stats ts).2.imported +
            (runRows persistOk store stats ts).2.skipped +
            (runRows persistOk store stats ts).2.errors) := by
  induction ts with
  | nil =>
    intro store stats
    exact ⟨by simp [runRows], fun h => by simpa [runRows] using h⟩
  | cons t ts ih =>
    intro store stats
    constructor
    · have h₁ := (ih (processRow persistOk store t).1
        (stats.bump (processRow persistOk store t).2)).1
      simp only [runRows] at h₁ ⊢
      rw [h₁, bump_total]
      simp [List.length_cons]
      omega
    · intro h
      have h₂ := (ih (processRow persistOk store t).1
        (stats.bump (processRow persistOk store t).2)).2
        (bump_sum _ _ h)
      simpa only [runRows] using h₂

theorem processRow_classify (persistOk : FeedbackItem → Bool) :
    RowClassification persistOk := by
  intro sto t
  cases hn : normalize t with
  | error e =>
    cases e
    refine ⟨?_, ?_, ?_⟩ <;> simp [processRow, hn]
  | ok n =>
    by_cases hd : existsByHash sto n.text_hash
    · refine ⟨?_, ?_, ?_⟩ <;> simp [processRow, hn, hd]
    · by_cases hp : persistOk (mkItem "app_store_csv" t n)
      · refine ⟨?_, ?_, ?_⟩ <;> simp [processRow, hn, hd, hp]
      · refine ⟨?_, ?_, ?_⟩ <;> simp [processRow, hn, hd, hp]

/-- C3: with a detected text column, `import_csv` always returns a batch
whose counters satisfy
`total_processed = imported + skipped + errors = number of rows`, and each
row is counted per the fault-isolation discipline (empty/duplicate rows
are skips, persistence refusals are errors, successes are imports) without
ever aborting the batch. -/
theorem import_csv_counters (persistOk : FeedbackItem → Bool)
    (store : List FeedbackItem) (filename : String) (headers : List String)
    (rows : List (List String)) (i : Nat)
    (hdet : detectRole headers textCandidates = some i) :
    (∃ store' batch,
      import_csv persistOk store filename headers rows =
        .ok (store', batch) ∧
      batch.filename = filename ∧
      batch.stats.total_processed =
        batch.stats.imported + batch.stats.skipped + batch.stats.errors ∧
      batch.stats.total_processed = rows.length) ∧
    RowClassification persistOk := by
  have hrun := runRows_stats persistOk
    (rows.map (fun row => row.getD i "")) store .zero
  refine ⟨⟨(runRows persistOk store .zero
      (rows.map (fun row => row.getD i ""))).1,
    ⟨(runRows persistOk store .zero
      (rows.map (fun row => row.getD i ""))).2, filename⟩,
    ?_, rfl, ?_, ?_⟩, processRow_classify persistOk⟩
  · unfold import_csv
    rw [hdet]
  · exact hrun.2 rfl
  · rw [hrun.1]
    simp [ImportStats.zero]

/-- C3 witness: on ten valid rows plus one empty-text row, the batch
reports imported 10, skipped 1, errors 0, total 11, and the theorem's
counter identities hold there. -/
theorem import_csv_counters_spot :
    detectRole ["title", "review", "rating"] textCandidates = some 1 ∧
    ((∃ store' batch,
        import_csv (fun _ => true) [] "reviews.csv"
          ["title", "review", "rating"] sampleRows = .ok (store', batch) ∧
        batch.filename = "reviews.csv" ∧
        batch.stats.total_processed =
          batch.stats.imported + batch.stats.skipped + batch.stats.errors ∧
        batch.stats.total_processed = sampleRows.length) ∧
      RowClassification (fun _ => true)) ∧
    (match import_csv (fun _ => true) [] "reviews.csv"
        ["title", "review", "rating"] sampleRows with
      | .ok r => some r.2.stats
      | .error _ => none) = some ⟨10, 1, 0, 11⟩ :=
  ⟨by decide,
    import_csv_counters (fun _ => true) [] "reviews.csv"
      ["title", "review", "rating"] sampleRows 1 (by decide),
    by decide⟩

/-! ## Theorems: KPI Aggregator and display banding -/

theorem sentimentTag_very_positive_eq (s : ℚ) :
    (sentimentTag s == "very_positive") = decide ((6 / 10 : ℚ) ≤ s) := by
  unfold sentimentTag
  by_cases h₁ : s ≤ -(2 / 10)
  · have h₂ : ¬(6 / 10 : ℚ) ≤ s := by linarith
    simp [h₁, h₂]
  · by_cases h₂ : (6 / 10 : ℚ) ≤ s <;> simp [h₁, h₂]

theorem sentimentTag_negative_eq (s : ℚ) :
    (sentimentTag s == "negative") = decide (s ≤ -(2 / 10)) := by
  unfold sentimentTag
  by_cases h₁ : s ≤ -(2 / 10)
  · simp [h₁]
  · by_cases h₂ : (6 / 10 : ℚ) ≤ s <;> simp [h₁, h₂]

theorem level_high_iff (u : ℚ) : level (some u) = "High" ↔ highBand ≤ u := by
  unfold level
  by_cases h : highBand ≤ u
  · simp [h]
  · by_cases h₂ : (33 / 100 : ℚ) ≤ u <;> simp [h, h₂]

/-- C8: the KPI urgent counter counts exactly the items whose urgency
exceeds the 0.66 threshold — the same threshold at which the "High"
display band starts — and the positive/negative counters count exactly
the items the tag extractor labels very_positive / negative. -/
theorem computeKpis_thresholds (items : List FeedbackItem) :
    (computeKpis items).urgent =
      items.countP (fun it => decide (highBand < it.urgency)) ∧
    (∀ u : ℚ, level (some u) = "High" ↔ highBand ≤ u) ∧
    (computeKpis items).positive =
      items.countP (fun it => sentimentTag it.sentiment == "very_positive") ∧
    (computeKpis items).negative =
      items.countP (fun it => sentimentTag it.sentiment == "negative") := by
  refine ⟨?_, level_high_iff, ?_, ?_⟩
  · rw [List.countP_eq_length_filter]
    rfl
  · rw [List.countP_eq_length_filter]
    show (items.filter (fun it => decide ((6 / 10 : ℚ) ≤ it.sentiment))).length
      = (items.filter
          (fun it => sentimentTag it.sentiment == "very_positive")).length
    congr 1
    apply List.filter_congr
    intro it _
    exact (sentimentTag_very_positive_eq it.sentiment).symm
  · rw [List.countP_eq_length_filter]
    show (items.filter (fun it => decide (it.sentiment ≤ -(2 / 10)))).length
      = (items.filter
          (fun it => sentimentTag it.sentiment == "negative")).length
    congr 1
    apply List.filter_congr
    intro it _
    exact (sentimentTag_negative_eq it.sentiment).symm

/-- C8 witness: the theorem applied to the empty item list, with the
banding equivalence exercised at the threshold itself. -/
theorem computeKpis_thresholds_spot :
    ((computeKpis []).urgent =
        List.countP (fun it => decide (highBand < it.urgency))
          ([] : List FeedbackItem) ∧
      (∀ u : ℚ, level (some u) = "High" ↔ highBand ≤ u) ∧
      (computeKpis []).positive =
        List.countP (fun it => sentimentTag it.sentiment == "very_positive")
          ([] : List FeedbackItem) ∧
      (computeKpis []).negative =
        List.countP (fun it => sentimentTag it.sentiment == "negative")
          ([] : List FeedbackItem)) ∧
    level (some highBand) = "High" :=
  ⟨computeKpis_thresholds [],
    ((computeKpis_thresholds []).2.1 highBand).mpr le_rfl⟩

/-! ## Theorems: dashboard prioritized-feedback load -/

/-- C9: the cleaned dashboard list contains only rows with a computed
priority, in non-increasing priority order (null coerced to 0 in the
comparator), and every fetched row with a computed priority is kept. -/
theorem loadClean_spec (data : List FeedbackRow) :
    (∀ r ∈ loadClean data, r.priority ≠ none) ∧
    List.Pairwise (fun a b => b.priority.getD 0 ≤ a.priority.getD 0)
      (loadClean data) ∧
    (∀ r ∈ data, r.priority ≠ none → r ∈ loadClean data) := by
  have htrans : ∀ a b c : FeedbackRow, priorityDesc a b = true →
      priorityDesc b c = true → priorityDesc a c = true := by
    intro a b c hab hbc
    simp only [priorityDesc, decide_eq_true_iff] at hab hbc ⊢
    exact le_trans hbc hab
  have htot : ∀ a b : FeedbackRow,
      (priorityDesc a b || priorityDesc b a) = true := by
    intro a b
    simp only [priorityDesc]
    rcases le_total (b.priority.getD 0) (a.priority.getD 0) with h | h <;>
      simp [h]
  refine ⟨?_, ?_, ?_⟩
  · intro r hr
    have hmem := List.mem_mergeSort.mp hr
    exact Option.isSome_iff_ne_none.mp (List.mem_filter.mp hmem).2
  · have hs := List.sorted_mergeSort htrans htot
      (data.filter (fun r => r.priority.isSome))
    exact hs.imp (fun hab => by
      simpa [priorityDesc, decide_eq_true_iff] using hab)
  · intro r hr hp
    exact List.mem_mergeSort.mpr (List.mem_filter.mpr
      ⟨hr, Option.isSome_iff_ne_none.mpr hp⟩)

/-- C9 witness: the theorem applied to a concrete two-row fetch, one row
with a computed priority and one without. -/
theorem loadClean_spec_spot :
    (∀ r ∈ loadClean
        [⟨1, "slow dashboard", "2024-01-01", none, none, none, some 1, []⟩,
         ⟨2, "unscored", "2024-01-02", none, none, none, none, []⟩],
      r.priority ≠ none) ∧
    List.Pairwise (fun a b => b.priority.getD 0 ≤ a.priority.getD 0)
      (loadClean
        [⟨1, "slow dashboard", "2024-01-01", none, none, none, some 1, []⟩,
         ⟨2, "unscored", "2024-01-02", none, none, none, none, []⟩]) ∧
    (∀ r ∈
        [⟨1, "slow dashboard", "2024-01-01", none, none, none, some 1, []⟩,
         (⟨2, "unscored", "2024-01-02", none, none, none, none,
           []⟩ : FeedbackRow)],
      r.priority ≠ none → r ∈ loadClean
        [⟨1, "slow dashboard", "2024-01-01", none, none, none, some 1, []⟩,
         ⟨2, "unscored", "2024-01-02", none, none, none, none, []⟩]) :=
  loadClean_spec
    [⟨1, "slow dashboard", "2024-01-01", none, none, none, some 1, []⟩,
     ⟨2, "unscored", "2024-01-02", none, none, none, none, []⟩]

/-! ## Theorems: API client helpers -/

/-- C10 counterexample: on a failed upload whose body is not JSON, the
client throws "Upload failed" — the detail of the parse-failure fallback
object — not the status-code fallback message the claim predicts. -/
theorem uploadCsv_not_status_fallback :
    uploadCsv (⟨false, 500, none, none⟩ : UploadResponse Unit) =
      .error "Upload failed" ∧
    ("Upload failed" : String) ≠ "Upload failed with status 500" :=
  ⟨rfl, by decide⟩

/-- C10 amended: every helper returns a parsed body only from an ok
response; `uploadCsv` throws the server's non-empty `detail` when the
error body parses with one, the status-code fallback when the parsed
`detail` is missing or empty, and "Upload failed" when the error body is
not JSON. -/
theorem api_helpers_error_handling (α : Type) :
    (∀ (res : ApiResponse α) (v : α), fetchJson res = .ok v →
      res.ok = true ∧ res.body = some v) ∧
    (∀ (res : UploadResponse α) (v : α), uploadCsv res = .ok v →
      res.ok = true ∧ res.body = some v) ∧
    (∀ res : ApiResponse α, res.ok = false →
      fetchJson res = .error ("API error " ++ toString res.status)) ∧
    (∀ (res : UploadResponse α) (d : String), res.ok = false →
      res.errorBody = some ⟨some d⟩ → d ≠ "" →
      uploadCsv res = .error d) ∧
    (∀ res : UploadResponse α, res.ok = false →
      (res.errorBody = some ⟨none⟩ ∨ res.errorBody = some ⟨some ""⟩) →
      uploadCsv res =
        .error ("Upload failed with status " ++ toString res.status)) ∧
    (∀ res : UploadResponse α, res.ok = false → res.errorBody = none →
      uploadCsv res = .error "Upload failed") := by
  refine ⟨?_, ?_, ?_, ?_, ?_, ?_⟩
  · rintro ⟨ok, status, body⟩ v hres
    cases ok with
    | false => simp [fetchJson] at hres
    | true =>
      cases body with
      | none => simp [fetchJson] at hres
      | some w =>
        simp [fetchJson] at hres
        exact ⟨rfl, by rw [hres]⟩
  · rintro ⟨ok, status, body, errorBody⟩ v hres
    cases ok with
    | false => simp [uploadCsv] at hres
    | true =>
      cases body with
      | none => simp [uploadCsv] at hres
      | some w =>
        simp [uploadCsv] at hres
        exact ⟨rfl, by rw [hres]⟩
  · intro res hok
    unfold fetchJson
    rw [hok]
    simp
  · intro res d hok hbody hd
    unfold uploadCsv
    rw [hok, hbody]
    simp [String.isEmpty_iff, hd]
  · intro res hok hbody
    unfold uploadCsv
    rw [hok]
    rcases hbody with h | h <;> rw [h] <;>
      simp [show ("" : String).isEmpty = true from rfl]
  · intro res hok hbody
    unfold uploadCsv
    rw [hok, hbody]
    simp [show ("Upload failed" : String).isEmpty = false from rfl]

/-- C10 amended witness: the amended theorem applied at concrete
responses covering the ok path and the three error paths. -/
theorem api_helpers_error_handling_spot :
    fetchJson (⟨true, 200, some 7⟩ : ApiResponse Nat) = .ok 7 ∧
    fetchJson (⟨false, 500, none⟩ : ApiResponse Nat) =
      .error ("API error " ++ toString (500 : Nat)) ∧
    uploadCsv (⟨false, 404, none, some ⟨some "No text column"⟩⟩ :
        UploadResponse Nat) = .error "No text column" ∧
    uploadCsv (⟨false, 413, none, some ⟨none⟩⟩ : UploadResponse Nat) =
      .error ("Upload failed with status " ++ toString (413 : Nat)) ∧
    uploadCsv (⟨false, 500, none, none⟩ : UploadResponse Nat) =
      .error "Upload failed" :=
  ⟨rfl,
    (api_helpers_error_handling Nat).2.2.1 ⟨false, 500, none⟩ rfl,
    (api_helpers_error_handling Nat).2.2.2.1
      ⟨false, 404, none, some ⟨some "No text column"⟩⟩ "No text column"
      rfl rfl (by decide),
    (api_helpers_error_handling Nat).2.2.2.2.1
      ⟨false, 413, none, some ⟨none⟩⟩ rfl (Or.inl rfl),
    (api_helpers_error_handling Nat).2.2.2.2.2
      ⟨false, 500, none, none⟩ rfl rfl⟩

end Feed
